import Mathlib

/-!
# assets/js/main.js

A shallow embedding of the `DOMContentLoaded` handler of `assets/js/main.js`:

* the click handler installed on every `a[href^="#"]` (lines 4-17), and
* the pass over `.site-nav a` that adds the `active` class (lines 21-27).

JavaScript strings are sequences of UTF-16 code units, the only values the
script handles are `null` and strings, and the calls that are observable from
outside the script (`preventDefault`, `getElementById`, `scrollTo`) are
recorded in the order in which the handler makes them. The elements selected
by `querySelectorAll` are inputs: the clicked anchor for the handler, the list
of navigation links, in document order, for the pass.
-/

namespace GoCheatsheets

/-! ## JavaScript values -/

/-- A JavaScript string: a finite sequence of UTF-16 code units. -/
abbrev JSString := List Nat

/-- The UTF-16 code units of one Unicode scalar value. -/
def utf16Units (c : Char) : List Nat :=
  if c.toNat < 0x10000 then [c.toNat]
  else [0xD800 + (c.toNat - 0x10000) / 0x400, 0xDC00 + (c.toNat - 0x10000) % 0x400]

/-- The JavaScript string written as the literal `s` in the source. -/
def js (s : String) : JSString :=
  (s.toList.map utf16Units).flatten

/-- The values the script handles: `getAttribute` returns `null` or a string. -/
inductive JSValue where
  | null
  | string (s : JSString)
  deriving DecidableEq, Repr

/-- The exceptions the operations used by the script can throw. -/
inductive JSError where
  | typeError
  | syntaxError
  | invalidCharacterError
  deriving DecidableEq, Repr

/-- ToBoolean: `null` and the empty string are falsy, every other string is truthy. -/
def toBoolean : JSValue → Bool
  | .null => false
  | .string s => !s.isEmpty

/-- ToString on the values of the script: `null` becomes the string "null". -/
def toJSString : JSValue → JSString
  | .null => js "null"
  | .string s => s

/-- The operator `===` on `null` and strings: same type and same code units. -/
def strictEquals (a b : JSValue) : Bool :=
  decide (a = b)

/-- The method `String.prototype.startsWith(searchString)` with no position:
the argument is converted to a string and compared with the leading code units. -/
def startsWith (s : JSString) (searchString : JSValue) : Bool :=
  (toJSString searchString).isPrefixOf s

/-- The method `String.prototype.substring(start)` for a non-negative integer
`start`: the code units from `min(start, length)` to the end. -/
def substring (s : JSString) (start : Nat) : JSString :=
  s.drop start

/-! ## The document -/

/-- An element, with the attributes and properties the script reads or writes.
`id` and `href` are `none` when the attribute is absent. -/
structure Element where
  id : Option JSString
  href : Option JSString
  classList : List JSString
  offsetTop : Int
  deriving DecidableEq, Repr

/-- The call `el.getAttribute('href')`: `null` when the attribute is absent. -/
def getAttributeHref (el : Element) : JSValue :=
  match el.href with
  | none => .null
  | some v => .string v

/-- The call `document.getElementById(id)` over the elements in tree order: the
first element whose ID is `id`. An element whose `id` attribute is absent or
is the empty string has no ID, so the empty identifier finds nothing. -/
def getElementById (document : List Element) (id : JSString) : Option Element :=
  if id.isEmpty then none
  else document.find? (fun el => decide (el.id = some id))

/-- The ASCII whitespace code units (tab, LF, FF, CR, space). -/
def asciiWhitespace : List Nat := [0x09, 0x0A, 0x0C, 0x0D, 0x20]

/-- The method `classList.add(token)`: throws on an empty token or on one that
contains ASCII whitespace, otherwise appends the token unless it is there. -/
def classListAdd (classList : List JSString) (token : JSString) :
    Except JSError (List JSString) :=
  if token.isEmpty then .error .syntaxError
  else if token.any (fun u => asciiWhitespace.contains u) then .error .invalidCharacterError
  else if classList.contains token then .ok classList
  else .ok (classList ++ [token])

/-! ## Smooth scrolling for anchor links (lines 3-18) -/

/-- The selector `[href^="#"]`: the attribute is present and begins with `#`. -/
def hrefBeginsWithHash (el : Element) : Bool :=
  match el.href with
  | none => false
  | some v => startsWith v (.string (js "#"))

/-- The calls of the click handler that are visible outside it. -/
inductive Effect where
  | preventDefault
  | getElementById (id : JSString)
  | scrollTo (top : Int) (behavior : JSString)
  deriving DecidableEq, Repr

/-- The result of one run of the click handler: the calls made, in order, and
the exception that ended the run, if any. -/
structure Completion where
  effects : List Effect
  error : Option JSError
  deriving DecidableEq, Repr

/-- The click handler of lines 4-17, run on the clicked anchor `anchor`. -/
def clickHandler (document : List Element) (anchor : Element) : Completion :=
  -- e.preventDefault();
  match getAttributeHref anchor with
  | .null =>
    -- null.substring(1) throws a TypeError
    { effects := [.preventDefault], error := some .typeError }
  | .string href =>
    let targetId := substring href 1
    -- if (!targetId) return;
    if !toBoolean (.string targetId) then
      { effects := [.preventDefault], error := none }
    else
      match getElementById document targetId with
      | none =>
        { effects := [.preventDefault, .getElementById targetId], error := none }
      | some targetElement =>
        { effects := [.preventDefault, .getElementById targetId,
                      .scrollTo (targetElement.offsetTop - 80) (js "smooth")],
          error := none }

/-- Whether the run called `preventDefault` on the click event. -/
def defaultPrevented (c : Completion) : Bool :=
  c.effects.contains .preventDefault

/-- The scroll requests of a run, in order: `top` and `behavior` of each. -/
def scrollRequests (c : Completion) : List (Int × JSString) :=
  c.effects.filterMap fun
    | .scrollTo top behavior => some (top, behavior)
    | _ => none

/-- The identifiers looked up by a run, in order. -/
def lookups (c : Completion) : List JSString :=
  c.effects.filterMap fun
    | .getElementById id => some id
    | _ => none

/-! ## Active class on the current navigation item (lines 21-27) -/

/-- The condition of line 24,
`linkPath && (currentPath === linkPath || currentPath.startsWith(linkPath) && linkPath !== '/')`,
evaluated with the short-circuiting of `&&` and `||`. The second component
lists the arguments with which `startsWith` was called. -/
def evalCondition (currentPath : JSString) (linkPath : JSValue) : Bool × List JSValue :=
  if !toBoolean linkPath then (false, [])
  else if strictEquals (.string currentPath) linkPath then (true, [])
  else if !startsWith currentPath linkPath then (false, [linkPath])
  else (!strictEquals linkPath (.string (js "/")), [linkPath])

/-- Whether line 25 runs for `link`: the condition of line 24 holds. -/
def marksActive (currentPath : JSString) (link : Element) : Bool :=
  (evalCondition currentPath (getAttributeHref link)).1

/-- The callback of `forEach` on lines 22-27, run on one link. -/
def navCallback (currentPath : JSString) (link : Element) : Except JSError Element :=
  if marksActive currentPath link then
    match classListAdd link.classList (js "active") with
    | .error e => .error e
    | .ok classList => .ok { link with classList := classList }
  else .ok link

/-- The loop `document.querySelectorAll('.site-nav a').forEach(...)` over the
selected links, in order: the links afterwards and the exception that stopped
the loop, if any (the links after the failing one are then left as they were). -/
def markActiveLinks (currentPath : JSString) : List Element → List Element × Option JSError
  | [] => ([], none)
  | link :: rest =>
    match navCallback currentPath link with
    | .error e => (link :: rest, some e)
    | .ok link2 =>
      let r := markActiveLinks currentPath rest
      (link2 :: r.1, r.2)

/-- The link with `active` in its class list (appended unless already there). -/
def withActive (link : Element) : Element :=
  { link with classList :=
      if link.classList.contains (js "active") then link.classList
      else link.classList ++ [js "active"] }

/-! ## The conditions as the specification words them -/

/-- The condition of the specification for marking a link: the reference path
is present and it equals the current path, or the current path starts with
it and it is not the root path. Presence is that of the attribute. -/
def SpecActiveCondition (currentPath : JSString) (href : Option JSString) : Prop :=
  ∃ p, href = some p ∧ (p = currentPath ∨ (p <+: currentPath ∧ p ≠ js "/"))

/-- The same condition with presence read as "present and not empty". -/
def MatchCondition (currentPath : JSString) (href : Option JSString) : Prop :=
  ∃ p, href = some p ∧ p ≠ [] ∧ (p = currentPath ∨ (p <+: currentPath ∧ p ≠ js "/"))

/-! ## Basic facts -/

theorem js_empty : js "" = [] := by decide

theorem js_hash : js "#" = [35] := by decide

theorem classListAdd_active (classList : List JSString) :
    classListAdd classList (js "active")
      = .ok (if classList.contains (js "active") then classList
             else classList ++ [js "active"]) := by
  unfold classListAdd
  have h1 : (js "active").isEmpty = false := by decide
  have h2 : (js "active").any (fun u => asciiWhitespace.contains u) = false := by decide
  rw [h1, h2]
  by_cases h : classList.contains (js "active") = true
  · rw [h]; rfl
  · rw [Bool.not_eq_true] at h
    rw [h]; rfl

theorem navCallback_eq (currentPath : JSString) (link : Element) :
    navCallback currentPath link
      = .ok (if marksActive currentPath link then withActive link else link) := by
  unfold navCallback
  by_cases h : marksActive currentPath link = true
  · simp [h, classListAdd_active, withActive]
  · simp [h]

theorem markActiveLinks_eq (currentPath : JSString) (links : List Element) :
    markActiveLinks currentPath links
      = (links.map (fun l => if marksActive currentPath l then withActive l else l), none) := by
  induction links with
  | nil => rfl
  | cons link rest ih => simp [markActiveLinks, navCallback_eq, ih]

theorem active_mem_withActive (link : Element) :
    js "active" ∈ (withActive link).classList := by
  unfold withActive
  by_cases h : link.classList.contains (js "active") = true
  · rw [h]
    exact List.elem_iff.mp h
  · rw [Bool.not_eq_true] at h
    rw [h]
    exact List.mem_append_right _ (List.mem_singleton.mpr rfl)

theorem evalCondition_string (currentPath p : JSString) :
    (evalCondition currentPath (.string p)).1 = true
      ↔ p ≠ [] ∧ (p = currentPath ∨ (p <+: currentPath ∧ p ≠ js "/")) := by
  unfold evalCondition
  by_cases h0 : p = []
  · subst h0
    simp [toBoolean]
  · by_cases h1 : p = currentPath
    · subst h1
      simp [toBoolean, strictEquals, h0]
    · have h1' : ¬ currentPath = p := fun h => h1 h.symm
      by_cases h2 : p <+: currentPath
      · have h3 : List.isPrefixOf p currentPath = true := List.isPrefixOf_iff_prefix.mpr h2
        simp [toBoolean, strictEquals, startsWith, toJSString, h0, h1, h1', h2, h3]
      · have h3 : List.isPrefixOf p currentPath = false := by
          rw [← Bool.not_eq_true, List.isPrefixOf_iff_prefix]; exact h2
        simp [toBoolean, strictEquals, startsWith, toJSString, h0, h1, h1', h2, h3]

theorem marksActive_iff (currentPath : JSString) (link : Element) :
    marksActive currentPath link = true ↔ MatchCondition currentPath link.href := by
  unfold marksActive getAttributeHref MatchCondition
  cases hl : link.href with
  | none => simp [evalCondition, toBoolean]
  | some p => simp [evalCondition_string]

theorem getElem?_append_cons_length {α : Type} (xs ys : List α) (a : α) :
    (xs ++ a :: ys)[xs.length]? = some a := by
  induction xs with
  | nil => simp
  | cons x xs ih => simpa using ih

theorem marksActive_of_href_none (currentPath : JSString) (link : Element)
    (h : link.href = none) : marksActive currentPath link = false := by
  simp [marksActive, getAttributeHref, h, evalCondition, toBoolean]

theorem getElementById_of_ne_nil (document : List Element) (id : JSString) (h : id ≠ []) :
    getElementById document id = document.find? (fun el => decide (el.id = some id)) := by
  unfold getElementById
  cases id with
  | nil => exact absurd rfl h
  | cons u us => rfl

theorem clickHandler_of_href (document : List Element) (anchor : Element) (href : JSString)
    (h : anchor.href = some href) (hne : substring href 1 ≠ []) :
    clickHandler document anchor =
      match getElementById document (substring href 1) with
      | none =>
        { effects := [.preventDefault, .getElementById (substring href 1)], error := none }
      | some targetElement =>
        { effects := [.preventDefault, .getElementById (substring href 1),
                      .scrollTo (targetElement.offsetTop - 80) (js "smooth")],
          error := none } := by
  simp [clickHandler, getAttributeHref, h, toBoolean, hne]

/-! ## The anchor click handler -/

/-- C2. A click on an anchor whose href begins with `#`, whose fragment
identifier (the href without its first code unit) is not empty and is the id
of an element of the document: the handler calls `preventDefault`, looks the
fragment up, and issues exactly one scroll request, to `offsetTop - 80` of the
first element in tree order with that id, with behaviour `smooth`; nothing is
thrown. -/
theorem click_found_target_scrolls (document : List Element) (anchor : Element)
    (href : JSString) (hhref : anchor.href = some href)
    (_hhash : hrefBeginsWithHash anchor = true)
    (hfrag : substring href 1 ≠ [])
    (hex : ∃ el ∈ document, el.id = some (substring href 1)) :
    ∃ target,
      getElementById document (substring href 1) = some target ∧
      target.id = some (substring href 1) ∧
      (∃ before after, document = before ++ target :: after ∧
        ∀ el ∈ before, el.id ≠ some (substring href 1)) ∧
      clickHandler document anchor =
        { effects := [.preventDefault, .getElementById (substring href 1),
                      .scrollTo (target.offsetTop - 80) (js "smooth")],
          error := none } ∧
      defaultPrevented (clickHandler document anchor) = true ∧
      scrollRequests (clickHandler document anchor) = [(target.offsetTop - 80, js "smooth")] ∧
      (clickHandler document anchor).error = none := by
  cases hfind : getElementById document (substring href 1) with
  | none =>
    obtain ⟨el, hel, hid⟩ := hex
    rw [getElementById_of_ne_nil document _ hfrag, List.find?_eq_none] at hfind
    have := hfind el hel
    simp [hid] at this
  | some target =>
    have hrun := clickHandler_of_href document anchor href hhref hfrag
    rw [hfind] at hrun
    have hspec := hfind
    rw [getElementById_of_ne_nil document _ hfrag, List.find?_eq_some] at hspec
    obtain ⟨hp, before, after, hdoc, hbefore⟩ := hspec
    refine ⟨target, rfl, by simpa using hp, ⟨before, after, hdoc, ?_⟩, hrun, ?_, ?_, ?_⟩
    · intro el hel
      simpa using hbefore el hel
    · rw [hrun]; rfl
    · rw [hrun]; rfl
    · rw [hrun]

/-- C2 at `href="#top"` in a document with two elements of id `top`: one scroll
request, to 200 - 80 = 120, computed from the first of them. -/
theorem click_found_target_scrolls_witness :
    ∃ target,
      getElementById
          [⟨some (js "nav"), none, [], 0⟩, ⟨some (js "top"), none, [], 200⟩,
           ⟨some (js "top"), none, [], 900⟩]
          (substring (js "#top") 1) = some target ∧
      target.offsetTop = 200 ∧
      scrollRequests
          (clickHandler
            [⟨some (js "nav"), none, [], 0⟩, ⟨some (js "top"), none, [], 200⟩,
             ⟨some (js "top"), none, [], 900⟩]
            ⟨none, some (js "#top"), [], 0⟩)
        = [(target.offsetTop - 80, js "smooth")] := by
  obtain ⟨target, h1, _, _, _, _, h6, _⟩ :=
    click_found_target_scrolls
      [⟨some (js "nav"), none, [], 0⟩, ⟨some (js "top"), none, [], 200⟩,
       ⟨some (js "top"), none, [], 900⟩]
      ⟨none, some (js "#top"), [], 0⟩ (js "#top") rfl (by decide) (by decide)
      ⟨⟨some (js "top"), none, [], 200⟩, by decide, by decide⟩
  refine ⟨target, h1, ?_, h6⟩
  have h : getElementById
      [⟨some (js "nav"), none, [], 0⟩, ⟨some (js "top"), none, [], 200⟩,
       ⟨some (js "top"), none, [], 900⟩]
      (substring (js "#top") 1) = some ⟨some (js "top"), none, [], 200⟩ := by decide
  rw [h] at h1
  rw [← Option.some.inj h1]

/-- C6. A click on an anchor whose href begins with `#` and whose non-empty
fragment identifier is the id of no element of the document: the handler calls
`preventDefault`, looks the fragment up once, issues no scroll request and
throws nothing. -/
theorem click_missing_target_no_scroll (document : List Element) (anchor : Element)
    (href : JSString) (hhref : anchor.href = some href)
    (_hhash : hrefBeginsWithHash anchor = true)
    (hfrag : substring href 1 ≠ [])
    (hnone : ∀ el ∈ document, el.id ≠ some (substring href 1)) :
    clickHandler document anchor =
      { effects := [.preventDefault, .getElementById (substring href 1)], error := none } ∧
    defaultPrevented (clickHandler document anchor) = true ∧
    scrollRequests (clickHandler document anchor) = [] ∧
    (clickHandler document anchor).error = none := by
  have hfind : getElementById document (substring href 1) = none := by
    rw [getElementById_of_ne_nil document _ hfrag, List.find?_eq_none]
    intro el hel
    simpa using hnone el hel
  have hrun := clickHandler_of_href document anchor href hhref hfrag
  rw [hfind] at hrun
  refine ⟨hrun, ?_, ?_, ?_⟩
  · rw [hrun]; rfl
  · rw [hrun]; rfl
  · rw [hrun]

/-- C6 at `href="#missing"` in a document whose only id is `top`. -/
theorem click_missing_target_no_scroll_witness :
    defaultPrevented
        (clickHandler [⟨some (js "top"), none, [], 200⟩] ⟨none, some (js "#missing"), [], 0⟩)
      = true ∧
    scrollRequests
        (clickHandler [⟨some (js "top"), none, [], 200⟩] ⟨none, some (js "#missing"), [], 0⟩)
      = [] ∧
    (clickHandler [⟨some (js "top"), none, [], 200⟩] ⟨none, some (js "#missing"), [], 0⟩).error
      = none :=
  (click_missing_target_no_scroll [⟨some (js "top"), none, [], 200⟩]
    ⟨none, some (js "#missing"), [], 0⟩ (js "#missing") rfl (by decide) (by decide)
    (by decide)).2

/-- C7. A click on an anchor whose href is exactly `#`, in any document: the
handler calls `preventDefault` and nothing else, so there is no scroll request
and no lookup, and nothing is thrown. -/
theorem click_empty_fragment_does_nothing (document : List Element) (anchor : Element)
    (hhref : anchor.href = some (js "#")) :
    clickHandler document anchor = { effects := [.preventDefault], error := none } ∧
    defaultPrevented (clickHandler document anchor) = true ∧
    scrollRequests (clickHandler document anchor) = [] ∧
    lookups (clickHandler document anchor) = [] := by
  have hrun : clickHandler document anchor
      = { effects := [.preventDefault], error := none } := by
    simp [clickHandler, getAttributeHref, hhref, toBoolean, substring, js_hash]
  refine ⟨hrun, ?_, ?_, ?_⟩ <;> rw [hrun] <;> rfl

/-- C7 in a document that holds an element whose id attribute is the empty
string: the handler stops after `preventDefault`, with no lookup and no scroll
request. -/
theorem click_empty_fragment_does_nothing_witness :
    (Element.mk (some (js "")) none [] 500).id = some (substring (js "#") 1) ∧
    clickHandler [⟨some (js ""), none, [], 500⟩] ⟨none, some (js "#"), [], 0⟩
      = { effects := [.preventDefault], error := none } ∧
    scrollRequests (clickHandler [⟨some (js ""), none, [], 500⟩] ⟨none, some (js "#"), [], 0⟩)
      = [] ∧
    lookups (clickHandler [⟨some (js ""), none, [], 500⟩] ⟨none, some (js "#"), [], 0⟩) = [] :=
  have h := click_empty_fragment_does_nothing [⟨some (js ""), none, [], 500⟩]
    ⟨none, some (js "#"), [], 0⟩ rfl
  ⟨by decide, h.1, h.2.2.1, h.2.2.2⟩


/-! ## The active navigation marker -/

/-- C1, as the specification words it, fails at current path `/about` and a
link whose href attribute is present with the empty string as its value: the
worded condition holds (every path starts with the empty string, which is not
`/`), and the link is not marked and leaves the pass without the class. -/
theorem active_iff_present_match_counterexample :
    SpecActiveCondition (js "/about") (Element.mk none (some (js "")) [] 0).href ∧
    marksActive (js "/about") ⟨none, some (js ""), [], 0⟩ = false ∧
    markActiveLinks (js "/about") [⟨none, some (js ""), [], 0⟩]
      = ([⟨none, some (js ""), [], 0⟩], none) ∧
    js "active" ∉ (Element.mk none (some (js "")) [] 0).classList :=
  ⟨⟨js "", rfl, Or.inr ⟨by decide, by decide⟩⟩, by decide, by decide, by decide⟩

/-- C1, amended. For every current path and every navigation link, line 25
runs for the link if and only if its href is present, is not the empty string,
and equals the current path or is a prefix of it other than `/`. When it
runs the callback returns the link with `active` in its class list, otherwise
it returns the link unchanged; it never throws. -/
theorem active_iff_nonempty_match (currentPath : JSString) (link : Element) :
    (marksActive currentPath link = true ↔ MatchCondition currentPath link.href) ∧
    (MatchCondition currentPath link.href →
      navCallback currentPath link = .ok (withActive link) ∧
      js "active" ∈ (withActive link).classList) ∧
    (¬ MatchCondition currentPath link.href → navCallback currentPath link = .ok link) := by
  refine ⟨marksActive_iff currentPath link, ?_, ?_⟩
  · intro h
    have hm := (marksActive_iff currentPath link).mpr h
    exact ⟨by rw [navCallback_eq, hm]; rfl, active_mem_withActive link⟩
  · intro h
    have hm : marksActive currentPath link = false := by
      rw [← Bool.not_eq_true]
      exact fun hm => h ((marksActive_iff currentPath link).mp hm)
    rw [navCallback_eq, hm]; rfl

/-- C1, amended, at current path `/blog/post-1`: the link to `/blog` matches
and is returned with the class, the link with an empty href does not match
and is returned unchanged. -/
theorem active_iff_nonempty_match_witness :
    (MatchCondition (js "/blog/post-1") (some (js "/blog")) ∧
      navCallback (js "/blog/post-1") ⟨none, some (js "/blog"), [], 0⟩
        = .ok ⟨none, some (js "/blog"), [js "active"], 0⟩) ∧
    (¬ MatchCondition (js "/blog/post-1") (some (js "")) ∧
      navCallback (js "/blog/post-1") ⟨none, some (js ""), [], 0⟩
        = .ok ⟨none, some (js ""), [], 0⟩) :=
  have hyes : MatchCondition (js "/blog/post-1") (some (js "/blog")) :=
    ⟨js "/blog", rfl, by decide, Or.inr ⟨by decide, by decide⟩⟩
  have hno : ¬ MatchCondition (js "/blog/post-1") (some (js "")) := by
    rintro ⟨p, hp, hne, _⟩
    exact hne (Option.some.inj hp).symm
  ⟨⟨hyes, ((active_iff_nonempty_match (js "/blog/post-1")
      ⟨none, some (js "/blog"), [], 0⟩).2.1 hyes).1⟩,
   ⟨hno, (active_iff_nonempty_match (js "/blog/post-1") ⟨none, some (js ""), [], 0⟩).2.2 hno⟩⟩

/-- C3, as stated, fails at the empty current path: it is a path other than `/`,
the link whose href is the empty string has an href exactly equal to it, and
the link is not marked. -/
theorem root_exclusion_counterexample :
    js "" ≠ js "/" ∧
    (Element.mk none (some (js "")) [] 0).href = some (js "") ∧
    marksActive (js "") ⟨none, some (js ""), [], 0⟩ = false ∧
    navCallback (js "") ⟨none, some (js ""), [], 0⟩ = .ok ⟨none, some (js ""), [], 0⟩ :=
  ⟨by decide, rfl, by decide, rfl⟩

/-- C3, amended. A link with href `/` is marked if and only if the current
path is exactly `/`; for every other current path it is not marked and is
returned unchanged; and a link whose href is exactly the current path is
marked, and returned with the class, whenever that path is not the empty
string. -/
theorem root_link_active_iff_root (currentPath : JSString) (link : Element) :
    (link.href = some (js "/") →
      (marksActive currentPath link = true ↔ currentPath = js "/")) ∧
    (link.href = some (js "/") → currentPath ≠ js "/" →
      marksActive currentPath link = false ∧ navCallback currentPath link = .ok link) ∧
    (link.href = some currentPath → currentPath ≠ [] →
      marksActive currentPath link = true ∧
      navCallback currentPath link = .ok (withActive link) ∧
      js "active" ∈ (withActive link).classList) := by
  have hroot : link.href = some (js "/") →
      (marksActive currentPath link = true ↔ currentPath = js "/") := by
    intro h
    rw [marksActive_iff, h]
    constructor
    · rintro ⟨p, hp, _, hor⟩
      cases Option.some.inj hp
      rcases hor with h1 | ⟨_, h2⟩
      · exact h1.symm
      · exact absurd rfl h2
    · intro hc
      exact ⟨js "/", rfl, by decide, Or.inl hc.symm⟩
  refine ⟨hroot, ?_, ?_⟩
  · intro h hne
    have hm : marksActive currentPath link = false := by
      rw [← Bool.not_eq_true]
      exact fun hm => hne ((hroot h).mp hm)
    exact ⟨hm, by rw [navCallback_eq, hm]; rfl⟩
  · intro h hne
    have hm : marksActive currentPath link = true := by
      rw [marksActive_iff, h]
      exact ⟨currentPath, rfl, hne, Or.inl rfl⟩
    exact ⟨hm, by rw [navCallback_eq, hm]; rfl, active_mem_withActive link⟩

/-- C3, amended, at current path `/about`: the link to `/` is returned
unchanged and the link to `/about` is returned with the class. -/
theorem root_link_active_iff_root_witness :
    (marksActive (js "/about") ⟨none, some (js "/"), [], 0⟩ = false ∧
      navCallback (js "/about") ⟨none, some (js "/"), [], 0⟩
        = .ok ⟨none, some (js "/"), [], 0⟩) ∧
    (marksActive (js "/about") ⟨none, some (js "/about"), [], 0⟩ = true ∧
      navCallback (js "/about") ⟨none, some (js "/about"), [], 0⟩
        = .ok ⟨none, some (js "/about"), [js "active"], 0⟩) :=
  ⟨(root_link_active_iff_root (js "/about") ⟨none, some (js "/"), [], 0⟩).2.1 rfl (by decide),
   ((root_link_active_iff_root (js "/about") ⟨none, some (js "/about"), [], 0⟩).2.2 rfl
      (by decide)).1,
   ((root_link_active_iff_root (js "/about") ⟨none, some (js "/about"), [], 0⟩).2.2 rfl
      (by decide)).2.1⟩

/-- C4. For every href that is not empty and not `/`, and every current path
of which it is a prefix, the link is marked: the callback returns it with
`active` in its class list. -/
theorem prefix_match_marks_active (currentPath : JSString) (link : Element) (p : JSString)
    (hhref : link.href = some p) (hne : p ≠ []) (hroot : p ≠ js "/")
    (hpre : p <+: currentPath) :
    marksActive currentPath link = true ∧
    navCallback currentPath link = .ok (withActive link) ∧
    js "active" ∈ (withActive link).classList := by
  have hm : marksActive currentPath link = true := by
    rw [marksActive_iff, hhref]
    exact ⟨p, rfl, hne, Or.inr ⟨hpre, hroot⟩⟩
  exact ⟨hm, by rw [navCallback_eq, hm]; rfl, active_mem_withActive link⟩

/-- C4 at current path `/blog/post-1` and href `/blog`. -/
theorem prefix_match_marks_active_witness :
    marksActive (js "/blog/post-1") ⟨none, some (js "/blog"), [js "nav-link"], 0⟩ = true ∧
    navCallback (js "/blog/post-1") ⟨none, some (js "/blog"), [js "nav-link"], 0⟩
      = .ok ⟨none, some (js "/blog"), [js "nav-link", js "active"], 0⟩ :=
  have h := prefix_match_marks_active (js "/blog/post-1")
    ⟨none, some (js "/blog"), [js "nav-link"], 0⟩ (js "/blog") rfl (by decide) (by decide)
    (by decide)
  ⟨h.1, h.2.1⟩


/-- C5. A link with no href attribute, for every current path: the condition of
line 24 is false and `startsWith` is never called, the callback returns the
link unchanged without throwing, and wherever the link stands among the
navigation links the pass ends without an exception and leaves it as it was. -/
theorem missing_href_never_active (currentPath : JSString) (link : Element)
    (hhref : link.href = none) :
    getAttributeHref link = .null ∧
    evalCondition currentPath (getAttributeHref link) = (false, []) ∧
    marksActive currentPath link = false ∧
    navCallback currentPath link = .ok link ∧
    ∀ before after : List Element,
      (markActiveLinks currentPath (before ++ link :: after)).2 = none ∧
      (markActiveLinks currentPath (before ++ link :: after)).1[before.length]?
        = some link := by
  have hnull : getAttributeHref link = .null := by simp [getAttributeHref, hhref]
  have hm := marksActive_of_href_none currentPath link hhref
  refine ⟨hnull, by rw [hnull]; rfl, hm, by rw [navCallback_eq, hm]; rfl, ?_⟩
  intro before after
  rw [markActiveLinks_eq]
  refine ⟨rfl, ?_⟩
  have h := getElem?_append_cons_length
    (before.map (fun l => if marksActive currentPath l then withActive l else l))
    (after.map (fun l => if marksActive currentPath l then withActive l else l)) link
  simpa [hm] using h

/-- C5 at current path `nullable`, which does start with the string that
`null` converts to: the guard keeps the prefix test from running, and the
link without href is left unmarked between two links that are marked. -/
theorem missing_href_never_active_witness :
    startsWith (js "nullable") JSValue.null = true ∧
    evalCondition (js "nullable") (getAttributeHref ⟨none, none, [], 0⟩) = (false, []) ∧
    navCallback (js "nullable") ⟨none, none, [], 0⟩ = .ok ⟨none, none, [], 0⟩ ∧
    (markActiveLinks (js "nullable")
        ([⟨none, some (js "null"), [], 0⟩] ++ ⟨none, none, [], 0⟩
          :: [⟨none, some (js "nullable"), [], 0⟩])).2 = none :=
  have h := missing_href_never_active (js "nullable") ⟨none, none, [], 0⟩ rfl
  ⟨by decide, h.2.1, h.2.2.2.1,
   (h.2.2.2.2 [⟨none, some (js "null"), [], 0⟩] [⟨none, some (js "nullable"), [], 0⟩]).1⟩

/-- C8, with the match condition as the specification words it, fails at
current path `/about` for the links to `/about` and with href the empty string:
both satisfy the worded condition, and the pass marks the first only, so the
marked links are not all the links that satisfy it. -/
theorem marked_set_is_worded_match_set_counterexample :
    SpecActiveCondition (js "/about") (Element.mk none (some (js "/about")) [] 0).href ∧
    SpecActiveCondition (js "/about") (Element.mk none (some (js "")) [] 0).href ∧
    markActiveLinks (js "/about")
        [⟨none, some (js "/about"), [], 0⟩, ⟨none, some (js ""), [], 0⟩]
      = ([⟨none, some (js "/about"), [js "active"], 0⟩, ⟨none, some (js ""), [], 0⟩], none) ∧
    ¬ (∀ l ∈ [Element.mk none (some (js "/about")) [] 0, Element.mk none (some (js "")) [] 0],
        (marksActive (js "/about") l = true ↔ SpecActiveCondition (js "/about") l.href)) := by
  have h2 : SpecActiveCondition (js "/about") (Element.mk none (some (js "")) [] 0).href :=
    ⟨js "", rfl, Or.inr ⟨by decide, by decide⟩⟩
  refine ⟨⟨js "/about", rfl, Or.inl rfl⟩, h2, by decide, ?_⟩
  intro hall
  have hm := (hall (Element.mk none (some (js "")) [] 0)
    (List.mem_cons_of_mem _ (List.mem_singleton.mpr rfl))).mpr h2
  exact absurd hm (by decide)

/-- C8, amended. For every list of navigation links the pass ends without an
exception and its result is the list with each link replaced by the outcome of
its own decision: the links with `active` added are exactly those whose href
is present, is not the empty string, and equals the current path or is a
prefix of it other than `/`, a condition that reads only the link's href and
the current path. The outcome for a link is the same whatever stands before
and after it, and at current path `/blog/post-1` the links to `/blog` and to
`/blog/post-1` are both marked while the link to `/` between them is not. -/
theorem marking_is_pointwise (currentPath : JSString) (links : List Element) :
    markActiveLinks currentPath links
      = (links.map (fun l => if marksActive currentPath l then withActive l else l), none) ∧
    (∀ l : Element, marksActive currentPath l = true ↔ MatchCondition currentPath l.href) ∧
    (∀ l1 l2 : Element, l1.href = l2.href →
      marksActive currentPath l1 = marksActive currentPath l2) ∧
    (∀ (before after : List Element) (l : Element),
      (markActiveLinks currentPath (before ++ l :: after)).1[before.length]?
        = (markActiveLinks currentPath [l]).1.head?) ∧
    markActiveLinks (js "/blog/post-1")
        [⟨none, some (js "/blog"), [], 0⟩, ⟨none, some (js "/"), [], 0⟩,
         ⟨none, some (js "/blog/post-1"), [], 0⟩]
      = ([⟨none, some (js "/blog"), [js "active"], 0⟩, ⟨none, some (js "/"), [], 0⟩,
          ⟨none, some (js "/blog/post-1"), [js "active"], 0⟩], none) := by
  refine ⟨markActiveLinks_eq currentPath links, marksActive_iff currentPath, ?_, ?_, ?_⟩
  · intro l1 l2 h
    simp [marksActive, getAttributeHref, h]
  · intro before after l
    rw [markActiveLinks_eq, markActiveLinks_eq]
    have h := getElem?_append_cons_length
      (before.map (fun l => if marksActive currentPath l then withActive l else l))
      (after.map (fun l => if marksActive currentPath l then withActive l else l))
      (if marksActive currentPath l then withActive l else l)
    simpa using h
  · decide

/-- C9. A link whose href attribute is present with the empty string as its
value is never marked, for every current path: the callback returns it
unchanged, although the current path starts with the empty string and the
empty string is not `/`. -/
theorem empty_href_never_active (currentPath : JSString) (link : Element)
    (hhref : link.href = some (js "")) :
    marksActive currentPath link = false ∧
    navCallback currentPath link = .ok link ∧
    (markActiveLinks currentPath [link]) = ([link], none) ∧
    startsWith currentPath (.string (js "")) = true ∧
    js "" <+: currentPath ∧
    js "" ≠ js "/" := by
  have hm : marksActive currentPath link = false := by
    simp [marksActive, getAttributeHref, hhref, evalCondition, toBoolean, js_empty]
  refine ⟨hm, by rw [navCallback_eq, hm]; rfl, ?_, ?_, ?_, by decide⟩
  · rw [markActiveLinks_eq]
    simp [hm]
  · simp [startsWith, toJSString, js_empty]
  · rw [js_empty]
    exact List.nil_prefix

/-- C9 at current path `/about`. -/
theorem empty_href_never_active_witness :
    marksActive (js "/about") ⟨none, some (js ""), [], 0⟩ = false ∧
    navCallback (js "/about") ⟨none, some (js ""), [], 0⟩ = .ok ⟨none, some (js ""), [], 0⟩ :=
  have h := empty_href_never_active (js "/about") ⟨none, some (js ""), [], 0⟩ rfl
  ⟨h.1, h.2.1⟩

/-- C10. The prefix rule compares code units, not path segments: at current
path `/blogger` the href `/blog` is not `/`, is not the current path and is not
followed by `/` in it, and the link is marked; and for every path, a link whose
href is that path followed by `/` is not marked at that path: the callback and
the pass return it unchanged. -/
theorem prefix_rule_is_string_prefix :
    (∃ currentPath href : JSString,
      currentPath = js "/blogger" ∧ href = js "/blog" ∧
      href ≠ js "/" ∧ href ≠ currentPath ∧ href <+: currentPath ∧
      ¬ (href ++ js "/") <+: currentPath ∧
      marksActive currentPath ⟨none, some href, [], 0⟩ = true ∧
      navCallback currentPath ⟨none, some href, [], 0⟩
        = .ok ⟨none, some href, [js "active"], 0⟩) ∧
    (∀ (currentPath : JSString) (link : Element),
      link.href = some (currentPath ++ js "/") →
      marksActive currentPath link = false ∧
      navCallback currentPath link = .ok link ∧
      markActiveLinks currentPath [link] = ([link], none)) := by
  refine ⟨⟨js "/blogger", js "/blog", rfl, rfl, by decide, by decide, by decide, by decide,
    by decide, rfl⟩, ?_⟩
  intro currentPath link hhref
  have hlen : (currentPath ++ js "/").length = currentPath.length + 1 := by
    rw [List.length_append]; rfl
  have hm : marksActive currentPath link = false := by
    rw [← Bool.not_eq_true, marksActive_iff, hhref]
    rintro ⟨p, hp, _, hor⟩
    cases Option.some.inj hp
    rcases hor with heq | ⟨hpre, _⟩
    · have := congrArg List.length heq
      omega
    · have := hpre.length_le
      omega
  refine ⟨hm, by rw [navCallback_eq, hm]; rfl, ?_⟩
  rw [markActiveLinks_eq]
  simp [hm]

/-- C10 at current path `/blog`: the link with href `/blog/` is not marked and
is returned unchanged. -/
theorem prefix_rule_is_string_prefix_witness :
    (Element.mk none (some (js "/blog/")) [] 0).href = some (js "/blog" ++ js "/") ∧
    marksActive (js "/blog") ⟨none, some (js "/blog/"), [], 0⟩ = false ∧
    navCallback (js "/blog") ⟨none, some (js "/blog/"), [], 0⟩
      = .ok ⟨none, some (js "/blog/"), [], 0⟩ :=
  have h := prefix_rule_is_string_prefix.2 (js "/blog") ⟨none, some (js "/blog/"), [], 0⟩
    (by decide)
  ⟨by decide, h.1, h.2.1⟩

end GoCheatsheets
